import Mathlib

/-!
Verification of the wealth-tax simulator (`streamlit_app.py`).

The core of the repository is the function `simulate_wealth_tax_impact`,
a deterministic per-year recurrence over three wealth bands
(ultra-wealthy / middle / lower).  We embed it shallowly over ℚ:
the Python code computes with floats and applies no rounding between
steps, so the exact-arithmetic embedding follows the same expressions
term by term.
-/

namespace WealthSim

/-- One wealth group of the initial distribution: a population count
(millions) and a total wealth (£ billions), as built by
`initialize_wealth_groups` in the source. -/
structure WealthGroup where
  population : ℚ
  total_wealth : ℚ
  deriving Repr, DecidableEq

/-- The three fixed wealth groups, in the fixed order used by the source
dictionary: ultra wealthy (>£10M), middle wealth (>£100K),
lower wealth (<£100K). -/
structure WealthGroups where
  ultraWealthy : WealthGroup
  middleWealth : WealthGroup
  lowerWealth : WealthGroup
  deriving Repr, DecidableEq

/-- `initialize_wealth_groups` from the source: the baked-in UK initial
distribution (populations 0.022M / 30M / 36M, wealth 1200 / 8000 / 800
£bn). -/
def initialize_wealth_groups : WealthGroups :=
  { ultraWealthy := { population := 22/1000, total_wealth := 1200 }
    middleWealth := { population := 30, total_wealth := 8000 }
    lowerWealth := { population := 36, total_wealth := 800 } }

/-- One row of the simulation output (`results` in the source): the year
index and the three per-group wealth totals. -/
structure YearSnapshot where
  year : ℕ
  ultraWealthy : ℚ
  middleWealth : ℚ
  lowerWealth : ℚ
  deriving Repr, DecidableEq

/-- Post-growth wealth of the ultra-wealthy group:
`ultra_wealthy_new = current + current * ((growth_rate + high_wealth_premium) / 100)`
(source lines 74 and 79). -/
def ultra_wealthy_new (growth_rate high_wealth_premium : ℚ) (s : YearSnapshot) : ℚ :=
  s.ultraWealthy + s.ultraWealthy * ((growth_rate + high_wealth_premium) / 100)

/-- Post-growth wealth of the middle group:
`middle_wealth_new = current + current * (growth_rate / 100)`
(source lines 75 and 80). -/
def middle_wealth_new (growth_rate : ℚ) (s : YearSnapshot) : ℚ :=
  s.middleWealth + s.middleWealth * (growth_rate / 100)

/-- Post-growth wealth of the lower group:
`lower_wealth_new = current + current * (growth_rate / 100)`
(source lines 76 and 81). -/
def lower_wealth_new (growth_rate : ℚ) (s : YearSnapshot) : ℚ :=
  s.lowerWealth + s.lowerWealth * (growth_rate / 100)

/-- Tax levied on the ultra-wealthy group's post-growth wealth:
`tax_collected = ultra_wealthy_new * (tax_rate / 100)` (source line 84). -/
def tax_collected (tax_rate growth_rate high_wealth_premium : ℚ) (s : YearSnapshot) : ℚ :=
  ultra_wealthy_new growth_rate high_wealth_premium s * (tax_rate / 100)

/-- One iteration of the `for year in range(1, years + 1)` loop body of
`simulate_wealth_tax_impact` (source lines 72–102): growth, taxation of
the top band, redistribution of `tax_collected * redistribution_eff`
split 30% / 70% to middle / lower, and the year counter advanced. -/
def stepState (tax_rate growth_rate high_wealth_premium redistribution_eff : ℚ)
    (s : YearSnapshot) : YearSnapshot :=
  let uNew := ultra_wealthy_new growth_rate high_wealth_premium s
  let mNew := middle_wealth_new growth_rate s
  let lNew := lower_wealth_new growth_rate s
  let taxC := tax_collected tax_rate growth_rate high_wealth_premium s
  let ultra_wealthy_after_tax := uNew - taxC
  let tax_to_redistribute := taxC * redistribution_eff
  let middle_wealth_share : ℚ := 3/10
  let lower_wealth_share : ℚ := 7/10
  let middle_wealth_final := mNew + tax_to_redistribute * middle_wealth_share
  let lower_wealth_final := lNew + tax_to_redistribute * lower_wealth_share
  { year := s.year + 1
    ultraWealthy := ultra_wealthy_after_tax
    middleWealth := middle_wealth_final
    lowerWealth := lower_wealth_final }

/-- The loop of `simulate_wealth_tax_impact`: starting from state `s`,
run `n` further iterations and collect the emitted snapshots in order. -/
def simulateFrom (tax_rate growth_rate high_wealth_premium redistribution_eff : ℚ) :
    ℕ → YearSnapshot → List YearSnapshot
  | 0, _ => []
  | n + 1, s =>
    let s' := stepState tax_rate growth_rate high_wealth_premium redistribution_eff s
    s' :: simulateFrom tax_rate growth_rate high_wealth_premium redistribution_eff n s'

/-- The year-0 state of `simulate_wealth_tax_impact` (source lines 64–69):
the three groups' total wealth, unchanged, tagged year 0. -/
def initState (wealth_groups : WealthGroups) : YearSnapshot :=
  { year := 0
    ultraWealthy := wealth_groups.ultraWealthy.total_wealth
    middleWealth := wealth_groups.middleWealth.total_wealth
    lowerWealth := wealth_groups.lowerWealth.total_wealth }

/-- `simulate_wealth_tax_impact` (source lines 59–104): the full
trajectory, year 0 through year `years`.  The `threshold` parameter is
accepted, as in the source, and — as in the source — never read by the
recurrence. -/
def simulate_wealth_tax_impact (wealth_groups : WealthGroups) (years : ℕ)
    (tax_rate threshold growth_rate high_wealth_premium redistribution_eff : ℚ) :
    List YearSnapshot :=
  let _ := threshold
  initState wealth_groups ::
    simulateFrom tax_rate growth_rate high_wealth_premium redistribution_eff years
      (initState wealth_groups)

/-- The per-year revenue the presentation layer recomputes from two
consecutive snapshots (source lines 184–192):
`prev_top * (1 + (avg_growth_rate + high_wealth_growth_premium) / 100) - cur_top`. -/
def tax_revenue_at (growth_rate high_wealth_premium : ℚ) (prev cur : YearSnapshot) : ℚ :=
  prev.ultraWealthy * (1 + (growth_rate + high_wealth_premium) / 100) - cur.ultraWealthy

/-- The share computation of the presentation layer (source lines
160–168): each group's wealth divided by the year's total across the
three groups.  Division is ℚ division, total in particular at a zero
denominator. -/
def wealth_shares (s : YearSnapshot) : ℚ × ℚ × ℚ :=
  let total_wealth := s.ultraWealthy + s.middleWealth + s.lowerWealth
  (s.ultraWealthy / total_wealth, s.middleWealth / total_wealth, s.lowerWealth / total_wealth)

/-! ## Structural lemmas about the trajectory -/

/-- The loop emits exactly one snapshot per iteration. -/
lemma simulateFrom_length (tr gr hp re : ℚ) :
    ∀ (n : ℕ) (s : YearSnapshot), (simulateFrom tr gr hp re n s).length = n := by
  intro n
  induction n with
  | zero => intro s; rfl
  | succ k ih => intro s; simp [simulateFrom, ih]

/-- The `t`-th snapshot emitted by the loop is the `(t+1)`-fold iterate
of the loop body on the entry state. -/
lemma simulateFrom_get? (tr gr hp re : ℚ) :
    ∀ (n : ℕ) (s : YearSnapshot) (t : ℕ), t < n →
      (simulateFrom tr gr hp re n s).get? t =
        some ((stepState tr gr hp re)^[t + 1] s) := by
  intro n
  induction n with
  | zero => intro s t ht; omega
  | succ k ih =>
    intro s t ht
    cases t with
    | zero => simp [simulateFrom]
    | succ u =>
      have hu : u < k := by omega
      simp only [simulateFrom, List.get?]
      rw [ih _ u hu]
      rw [Function.iterate_succ_apply (stepState tr gr hp re) (u + 1) s]

/-- Indexing the full trajectory: entry `t ≤ years` is the `t`-fold
iterate of the loop body on the initial state. -/
lemma simulate_get? (wg : WealthGroups) (years : ℕ) (tr th gr hp re : ℚ)
    (t : ℕ) (ht : t ≤ years) :
    (simulate_wealth_tax_impact wg years tr th gr hp re).get? t =
      some ((stepState tr gr hp re)^[t] (initState wg)) := by
  cases t with
  | zero => rfl
  | succ u =>
    show (simulateFrom tr gr hp re years (initState wg)).get? u = _
    exact simulateFrom_get? tr gr hp re years (initState wg) u (by omega)

/-- The loop body increments the year counter by one, so the `t`-fold
iterate adds `t`. -/
lemma iterate_year (tr gr hp re : ℚ) (s : YearSnapshot) :
    ∀ t : ℕ, ((stepState tr gr hp re)^[t] s).year = s.year + t := by
  intro t
  induction t with
  | zero => rfl
  | succ u ih =>
    rw [Function.iterate_succ_apply' (stepState tr gr hp re) u s]
    simp [stepState, ih]
    omega

/-- Two consecutive trajectory entries are related by one application of
the loop body. -/
lemma simulate_consecutive (wg : WealthGroups) (years : ℕ) (tr th gr hp re : ℚ)
    (t : ℕ) (ht1 : 1 ≤ t) (ht2 : t ≤ years) (prev cur : YearSnapshot)
    (hprev : (simulate_wealth_tax_impact wg years tr th gr hp re).get? (t - 1) = some prev)
    (hcur : (simulate_wealth_tax_impact wg years tr th gr hp re).get? t = some cur) :
    cur = stepState tr gr hp re prev := by
  have h1 := simulate_get? wg years tr th gr hp re (t - 1) (by omega)
  have h2 := simulate_get? wg years tr th gr hp re t ht2
  rw [h1] at hprev
  rw [h2] at hcur
  have ht : t = (t - 1) + 1 := by omega
  rw [ht, Function.iterate_succ_apply' (stepState tr gr hp re) (t - 1) (initState wg)]
    at hcur
  rw [Option.some_inj] at hprev hcur
  rw [← hcur, ← hprev]

end WealthSim

namespace WealthSim

/-! ## Claims -/

/-- Claim C1: for every year `1 ≤ t ≤ years`, the engine maps the
previous snapshot to the next one by exactly the specified rule:
`topGrown = top * (1 + (baseGrowthRate + highWealthGrowthPremium)/100)`,
`middleGrown = middle * (1 + baseGrowthRate/100)`,
`lowerGrown = lower * (1 + baseGrowthRate/100)`,
`taxCollected = topGrown * (taxRate/100)`, and the emitted snapshot is
`(topGrown - taxCollected,
  middleGrown + taxCollected * redistributionEfficiency * 0.30,
  lowerGrown + taxCollected * redistributionEfficiency * 0.70)`. -/
theorem claim_C1 (wg : WealthGroups) (years : ℕ) (tr th gr hp re : ℚ)
    (t : ℕ) (ht1 : 1 ≤ t) (ht2 : t ≤ years) (prev cur : YearSnapshot)
    (hprev : (simulate_wealth_tax_impact wg years tr th gr hp re).get? (t - 1) = some prev)
    (hcur : (simulate_wealth_tax_impact wg years tr th gr hp re).get? t = some cur) :
    cur.ultraWealthy =
        prev.ultraWealthy * (1 + (gr + hp) / 100) -
          prev.ultraWealthy * (1 + (gr + hp) / 100) * (tr / 100) ∧
    cur.middleWealth =
        prev.middleWealth * (1 + gr / 100) +
          prev.ultraWealthy * (1 + (gr + hp) / 100) * (tr / 100) * re * (3 / 10) ∧
    cur.lowerWealth =
        prev.lowerWealth * (1 + gr / 100) +
          prev.ultraWealthy * (1 + (gr + hp) / 100) * (tr / 100) * re * (7 / 10) := by
  have h := simulate_consecutive wg years tr th gr hp re t ht1 ht2 prev cur hprev hcur
  subst h
  refine ⟨?_, ?_, ?_⟩ <;>
    simp only [stepState, ultra_wealthy_new, middle_wealth_new, lower_wealth_new,
      tax_collected] <;>
    ring

/-- Witness for C1 at Scenario A (year 1 of the default run). -/
theorem claim_C1_witness :
    ({ year := 1, ultraWealthy := 124656/100, middleWealth := 84061056/10000,
       lowerWealth := 8542464/10000 } : YearSnapshot).ultraWealthy =
        (1200 : ℚ) * (1 + (5 + 1) / 100) - 1200 * (1 + (5 + 1) / 100) * (2 / 100) ∧
    ({ year := 1, ultraWealthy := 124656/100, middleWealth := 84061056/10000,
       lowerWealth := 8542464/10000 } : YearSnapshot).middleWealth =
        (8000 : ℚ) * (1 + 5 / 100) +
          1200 * (1 + (5 + 1) / 100) * (2 / 100) * (4/5) * (3 / 10) ∧
    ({ year := 1, ultraWealthy := 124656/100, middleWealth := 84061056/10000,
       lowerWealth := 8542464/10000 } : YearSnapshot).lowerWealth =
        (800 : ℚ) * (1 + 5 / 100) +
          1200 * (1 + (5 + 1) / 100) * (2 / 100) * (4/5) * (7 / 10) := by
  have h := claim_C1 initialize_wealth_groups 1 2 10000000 5 1 (4/5) 1
    (by decide) (by decide)
    { year := 0, ultraWealthy := 1200, middleWealth := 8000, lowerWealth := 800 }
    { year := 1, ultraWealthy := 124656/100, middleWealth := 84061056/10000,
      lowerWealth := 8542464/10000 }
    (by norm_num [simulate_wealth_tax_impact, simulateFrom, stepState, initState,
      initialize_wealth_groups, ultra_wealthy_new, middle_wealth_new, lower_wealth_new,
      tax_collected])
    (by norm_num [simulate_wealth_tax_impact, simulateFrom, stepState, initState,
      initialize_wealth_groups, ultra_wealthy_new, middle_wealth_new, lower_wealth_new,
      tax_collected])
  exact h

/-- Claim C2: the trajectory has length `years + 1`, its entry 0 is the
initial distribution unchanged (year 0), and entry `t` carries year
field `t` for every `t ≤ years`; with `years = 0` the trajectory is the
single initial snapshot. -/
theorem claim_C2 (wg : WealthGroups) (years : ℕ) (tr th gr hp re : ℚ) :
    (simulate_wealth_tax_impact wg years tr th gr hp re).length = years + 1 ∧
    (simulate_wealth_tax_impact wg years tr th gr hp re).get? 0 = some (initState wg) ∧
    ∀ t : ℕ, t ≤ years → ∀ s : YearSnapshot,
      (simulate_wealth_tax_impact wg years tr th gr hp re).get? t = some s →
        s.year = t := by
  refine ⟨?_, rfl, ?_⟩
  · show (initState wg :: simulateFrom tr gr hp re years (initState wg)).length = years + 1
    simp [simulateFrom_length]
  · intro t ht s hs
    rw [simulate_get? wg years tr th gr hp re t ht, Option.some_inj] at hs
    rw [← hs, iterate_year]
    simp [initState]

/-- Witness for C2 at Scenario B (`years = 0`): the trajectory has one
snapshot. -/
theorem claim_C2_witness :
    (simulate_wealth_tax_impact initialize_wealth_groups 0 2 10000000 5 1 (4/5)).length
      = 0 + 1 :=
  (claim_C2 initialize_wealth_groups 0 2 10000000 5 1 (4/5)).1

/-- Claim C3: in any single step, the post-growth totals and the
post-redistribution totals differ exactly by the inefficiency leakage
`taxCollected * (1 - redistributionEfficiency)`. -/
theorem claim_C3 (tr gr hp re : ℚ) (s : YearSnapshot) :
    ultra_wealthy_new gr hp s + middle_wealth_new gr s + lower_wealth_new gr s =
      (stepState tr gr hp re s).ultraWealthy + (stepState tr gr hp re s).middleWealth +
        (stepState tr gr hp re s).lowerWealth +
        tax_collected tr gr hp s * (1 - re) := by
  simp only [stepState, ultra_wealthy_new, middle_wealth_new, lower_wealth_new,
    tax_collected]
  ring

/-- Claim C4: Scenario A — with the baked-in initial distribution,
`taxRate = 2`, `baseGrowth = 5`, `premium = 1`, `redistEff = 0.8`,
one simulated year yields `topGrown = 1272`, `taxCollected = 25.44`,
`middleGrown = 8400`, `lowerGrown = 840`, and the year-1 snapshot
`(1246.56, 8406.1056, 854.2464)`. -/
theorem claim_C4 :
    (simulate_wealth_tax_impact initialize_wealth_groups 1 2 10000000 5 1 (4/5)).get? 1 =
      some { year := 1, ultraWealthy := 124656/100, middleWealth := 84061056/10000,
             lowerWealth := 8542464/10000 } ∧
    ultra_wealthy_new 5 1 (initState initialize_wealth_groups) = 1272 ∧
    tax_collected 2 5 1 (initState initialize_wealth_groups) = 2544/100 ∧
    middle_wealth_new 5 (initState initialize_wealth_groups) = 8400 ∧
    lower_wealth_new 5 (initState initialize_wealth_groups) = 840 ∧
    tax_collected 2 5 1 (initState initialize_wealth_groups) * (4/5) = 20352/1000 := by
  refine ⟨?_, ?_, ?_, ?_, ?_, ?_⟩ <;>
    norm_num [simulate_wealth_tax_impact, simulateFrom, stepState, initState,
      initialize_wealth_groups, ultra_wealthy_new, middle_wealth_new, lower_wealth_new,
      tax_collected]

/-- Claim C5: the trajectory does not depend on the `wealthThreshold`
parameter — two runs differing only in the threshold produce identical
output. -/
theorem claim_C5 (wg : WealthGroups) (years : ℕ) (tr th1 th2 gr hp re : ℚ) :
    simulate_wealth_tax_impact wg years tr th1 gr hp re =
      simulate_wealth_tax_impact wg years tr th2 gr hp re :=
  rfl

/-- Claim C6: the per-year revenue the caller recomputes from two
consecutive snapshots (`prev.top * (1 + (growth + premium)/100) - cur.top`)
equals the `tax_collected` value the engine computed internally in that
step. -/
theorem claim_C6 (wg : WealthGroups) (years : ℕ) (tr th gr hp re : ℚ)
    (t : ℕ) (ht1 : 1 ≤ t) (ht2 : t ≤ years) (prev cur : YearSnapshot)
    (hprev : (simulate_wealth_tax_impact wg years tr th gr hp re).get? (t - 1) = some prev)
    (hcur : (simulate_wealth_tax_impact wg years tr th gr hp re).get? t = some cur) :
    tax_revenue_at gr hp prev cur = tax_collected tr gr hp prev := by
  have h := simulate_consecutive wg years tr th gr hp re t ht1 ht2 prev cur hprev hcur
  subst h
  simp only [tax_revenue_at, stepState, tax_collected, ultra_wealthy_new]
  ring

/-- Witness for C6 at Scenario A: the recomputed year-1 revenue equals
the internally collected tax. -/
theorem claim_C6_witness :
    tax_revenue_at 5 1
        { year := 0, ultraWealthy := 1200, middleWealth := 8000, lowerWealth := 800 }
        { year := 1, ultraWealthy := 124656/100, middleWealth := 84061056/10000,
          lowerWealth := 8542464/10000 } =
      tax_collected 2 5 1
        { year := 0, ultraWealthy := 1200, middleWealth := 8000, lowerWealth := 800 } :=
  claim_C6 initialize_wealth_groups 1 2 10000000 5 1 (4/5) 1
    (by decide) (by decide)
    { year := 0, ultraWealthy := 1200, middleWealth := 8000, lowerWealth := 800 }
    { year := 1, ultraWealthy := 124656/100, middleWealth := 84061056/10000,
      lowerWealth := 8542464/10000 }
    (by norm_num [simulate_wealth_tax_impact, simulateFrom, stepState, initState,
      initialize_wealth_groups, ultra_wealthy_new, middle_wealth_new, lower_wealth_new,
      tax_collected])
    (by norm_num [simulate_wealth_tax_impact, simulateFrom, stepState, initState,
      initialize_wealth_groups, ultra_wealthy_new, middle_wealth_new, lower_wealth_new,
      tax_collected])

/-- Claim C7: with `redistributionEfficiency = 1` the tax-and-redistribute
part of a step conserves total wealth exactly: the post-step totals equal
the post-growth totals. -/
theorem claim_C7 (tr gr hp : ℚ) (s : YearSnapshot) :
    (stepState tr gr hp 1 s).ultraWealthy + (stepState tr gr hp 1 s).middleWealth +
        (stepState tr gr hp 1 s).lowerWealth =
      ultra_wealthy_new gr hp s + middle_wealth_new gr s + lower_wealth_new gr s := by
  simp only [stepState, ultra_wealthy_new, middle_wealth_new, lower_wealth_new,
    tax_collected]
  ring

/-- Claim C8: with `taxRate = 0`, every year collects zero tax and the
middle and lower groups evolve purely by organic growth. -/
theorem claim_C8 (wg : WealthGroups) (years : ℕ) (th gr hp re : ℚ)
    (t : ℕ) (ht1 : 1 ≤ t) (ht2 : t ≤ years) (prev cur : YearSnapshot)
    (hprev : (simulate_wealth_tax_impact wg years 0 th gr hp re).get? (t - 1) = some prev)
    (hcur : (simulate_wealth_tax_impact wg years 0 th gr hp re).get? t = some cur) :
    tax_collected 0 gr hp prev = 0 ∧
    cur.middleWealth = prev.middleWealth * (1 + gr / 100) ∧
    cur.lowerWealth = prev.lowerWealth * (1 + gr / 100) := by
  have h := simulate_consecutive wg years 0 th gr hp re t ht1 ht2 prev cur hprev hcur
  subst h
  refine ⟨?_, ?_, ?_⟩ <;>
    simp only [stepState, ultra_wealthy_new, middle_wealth_new, lower_wealth_new,
      tax_collected] <;>
    ring

/-- Witness for C8: one zero-tax year of the default distribution. -/
theorem claim_C8_witness :
    tax_collected 0 5 1
        { year := 0, ultraWealthy := 1200, middleWealth := 8000, lowerWealth := 800 } = 0 ∧
    ({ year := 1, ultraWealthy := 1272, middleWealth := 8400,
       lowerWealth := 840 } : YearSnapshot).middleWealth = (8000 : ℚ) * (1 + 5 / 100) ∧
    ({ year := 1, ultraWealthy := 1272, middleWealth := 8400,
       lowerWealth := 840 } : YearSnapshot).lowerWealth = (800 : ℚ) * (1 + 5 / 100) :=
  claim_C8 initialize_wealth_groups 1 10000000 5 1 (4/5) 1
    (by decide) (by decide)
    { year := 0, ultraWealthy := 1200, middleWealth := 8000, lowerWealth := 800 }
    { year := 1, ultraWealthy := 1272, middleWealth := 8400, lowerWealth := 840 }
    (by norm_num [simulate_wealth_tax_impact, simulateFrom, stepState, initState,
      initialize_wealth_groups, ultra_wealthy_new, middle_wealth_new, lower_wealth_new,
      tax_collected])
    (by norm_num [simulate_wealth_tax_impact, simulateFrom, stepState, initState,
      initialize_wealth_groups, ultra_wealthy_new, middle_wealth_new, lower_wealth_new,
      tax_collected])

/-- Claim C9: the share computation is total — at a year whose wealth
total is exactly zero it returns the defined zero shares rather than
failing — and at a nonzero total each group's share is its wealth divided
by the total. -/
theorem claim_C9 (s : YearSnapshot) :
    (s.ultraWealthy + s.middleWealth + s.lowerWealth = 0 →
      wealth_shares s = (0, 0, 0)) ∧
    (∀ total : ℚ, total = s.ultraWealthy + s.middleWealth + s.lowerWealth →
      total ≠ 0 →
      wealth_shares s =
        (s.ultraWealthy / total, s.middleWealth / total, s.lowerWealth / total)) := by
  constructor
  · intro h
    simp [wealth_shares, h]
  · intro total htot _
    subst htot
    rfl

/-- Witness for C9: the all-zero snapshot has zero total and the share
computation returns zero shares. -/
theorem claim_C9_witness :
    wealth_shares
        { year := 0, ultraWealthy := 0, middleWealth := 0, lowerWealth := 0 } =
      (0, 0, 0) :=
  (claim_C9 { year := 0, ultraWealthy := 0, middleWealth := 0, lowerWealth := 0 }).1
    (by norm_num)

end WealthSim

namespace WealthSim

/-- The loop body preserves nonnegativity of all three wealth values when
the tax rate is between 0 and 100, the redistribution efficiency between
0 and 1, and both effective growth rates are at least −100%. -/
lemma stepState_nonneg (tr gr hp re : ℚ) (htr0 : 0 ≤ tr) (htr1 : tr ≤ 100)
    (hre0 : 0 ≤ re) (hre1 : re ≤ 1) (hgr : -100 ≤ gr) (hghp : -100 ≤ gr + hp)
    (s : YearSnapshot) (hs : 0 ≤ s.ultraWealthy ∧ 0 ≤ s.middleWealth ∧ 0 ≤ s.lowerWealth) :
    0 ≤ (stepState tr gr hp re s).ultraWealthy ∧
    0 ≤ (stepState tr gr hp re s).middleWealth ∧
    0 ≤ (stepState tr gr hp re s).lowerWealth := by
  obtain ⟨hu, hm, hl⟩ := hs
  have hgp : (0 : ℚ) ≤ 1 + (gr + hp) / 100 := by linarith
  have hg : (0 : ℚ) ≤ 1 + gr / 100 := by linarith
  have htx : (0 : ℚ) ≤ 1 - tr / 100 := by linarith
  have htr : (0 : ℚ) ≤ tr / 100 := by linarith
  have huNew : 0 ≤ ultra_wealthy_new gr hp s := by
    have h := mul_nonneg hu hgp
    unfold ultra_wealthy_new
    nlinarith [h]
  have hmNew : 0 ≤ middle_wealth_new gr s := by
    have h := mul_nonneg hm hg
    unfold middle_wealth_new
    nlinarith [h]
  have hlNew : 0 ≤ lower_wealth_new gr s := by
    have h := mul_nonneg hl hg
    unfold lower_wealth_new
    nlinarith [h]
  have htaxC : 0 ≤ tax_collected tr gr hp s := by
    unfold tax_collected
    exact mul_nonneg huNew htr
  have hredis : 0 ≤ tax_collected tr gr hp s * re := mul_nonneg htaxC hre0
  refine ⟨?_, ?_, ?_⟩
  · show 0 ≤ ultra_wealthy_new gr hp s - tax_collected tr gr hp s
    have h := mul_nonneg huNew htx
    unfold tax_collected at h ⊢
    nlinarith [h]
  · show 0 ≤ middle_wealth_new gr s + tax_collected tr gr hp s * re * (3 / 10)
    have h : (0 : ℚ) ≤ tax_collected tr gr hp s * re * (3 / 10) := by positivity
    linarith
  · show 0 ≤ lower_wealth_new gr s + tax_collected tr gr hp s * re * (7 / 10)
    have h : (0 : ℚ) ≤ tax_collected tr gr hp s * re * (7 / 10) := by positivity
    linarith

/-- Every snapshot the loop emits from a nonnegative state is
nonnegative, under the parameter bounds of `stepState_nonneg`. -/
lemma simulateFrom_nonneg (tr gr hp re : ℚ) (htr0 : 0 ≤ tr) (htr1 : tr ≤ 100)
    (hre0 : 0 ≤ re) (hre1 : re ≤ 1) (hgr : -100 ≤ gr) (hghp : -100 ≤ gr + hp) :
    ∀ (n : ℕ) (s : YearSnapshot),
      (0 ≤ s.ultraWealthy ∧ 0 ≤ s.middleWealth ∧ 0 ≤ s.lowerWealth) →
      ∀ x ∈ simulateFrom tr gr hp re n s,
        0 ≤ x.ultraWealthy ∧ 0 ≤ x.middleWealth ∧ 0 ≤ x.lowerWealth := by
  intro n
  induction n with
  | zero =>
    intro s _ x hx
    simp [simulateFrom] at hx
  | succ k ih =>
    intro s hs x hx
    have hs' := stepState_nonneg tr gr hp re htr0 htr1 hre0 hre1 hgr hghp s hs
    simp only [simulateFrom, List.mem_cons] at hx
    rcases hx with rfl | hx
    · exact hs'
    · exact ih (stepState tr gr hp re s) hs' x hx

/-- Claim C10: with nonnegative initial wealth, `0 ≤ taxRate ≤ 100`,
`0 ≤ redistributionEfficiency ≤ 1`, `baseGrowthRate ≥ −100` and
`baseGrowthRate + highWealthGrowthPremium ≥ −100`, every snapshot of the
trajectory has all three wealth values nonnegative. -/
theorem claim_C10 (wg : WealthGroups) (years : ℕ) (tr th gr hp re : ℚ)
    (hw1 : 0 ≤ wg.ultraWealthy.total_wealth) (hw2 : 0 ≤ wg.middleWealth.total_wealth)
    (hw3 : 0 ≤ wg.lowerWealth.total_wealth)
    (htr0 : 0 ≤ tr) (htr1 : tr ≤ 100) (hre0 : 0 ≤ re) (hre1 : re ≤ 1)
    (hgr : -100 ≤ gr) (hghp : -100 ≤ gr + hp) :
    ∀ x ∈ simulate_wealth_tax_impact wg years tr th gr hp re,
      0 ≤ x.ultraWealthy ∧ 0 ≤ x.middleWealth ∧ 0 ≤ x.lowerWealth := by
  intro x hx
  have hinit : 0 ≤ (initState wg).ultraWealthy ∧ 0 ≤ (initState wg).middleWealth ∧
      0 ≤ (initState wg).lowerWealth := ⟨hw1, hw2, hw3⟩
  have hx' : x = initState wg ∨
      x ∈ simulateFrom tr gr hp re years (initState wg) := by
    simpa [simulate_wealth_tax_impact, List.mem_cons] using hx
  rcases hx' with rfl | hx'
  · exact hinit
  · exact simulateFrom_nonneg tr gr hp re htr0 htr1 hre0 hre1 hgr hghp years
      (initState wg) hinit x hx'

/-- Witness for C10: the year-0 snapshot of the default run is
nonnegative in all three groups. -/
theorem claim_C10_witness :
    0 ≤ (initState initialize_wealth_groups).ultraWealthy ∧
    0 ≤ (initState initialize_wealth_groups).middleWealth ∧
    0 ≤ (initState initialize_wealth_groups).lowerWealth :=
  claim_C10 initialize_wealth_groups 1 2 10000000 5 1 (4/5)
    (by norm_num [initialize_wealth_groups]) (by norm_num [initialize_wealth_groups])
    (by norm_num [initialize_wealth_groups]) (by norm_num) (by norm_num) (by norm_num)
    (by norm_num) (by norm_num) (by norm_num)
    (initState initialize_wealth_groups)
    (by norm_num [simulate_wealth_tax_impact])

end WealthSim
